import Mathlib

/-!
# IoT-Quiz, `Wifi - MQTT`: the configuration modules

Shallow embedding of the two configuration translation units

* `Wifi - MQTT/client/config.cpp` (with `client/config.h`), and
* `Wifi - MQTT/Registration/config.cpp`.

Each unit owns a handful of process-wide globals and one procedure,
`void loadConfig()`, that assigns string literals to the scalar globals.
The globals of a unit are gathered in a record (`Config`), the initialisers
give the record `init`, and `loadConfig` becomes a function on records.

A `const char*` is embedded as `Option String`: `none` is `nullptr`, and
`some t` is a pointer to the NUL-terminated text `t`.  Every literal of the
sources is ASCII, so characters and bytes coincide.
-/

namespace IoTQuiz

/-- A C string pointer: `none` is `nullptr`, `some t` points at the text `t`. -/
abbrev CStr := Option String

/-! ## Client role: `client/config.h`, `client/config.cpp` -/

namespace Client

/-- The globals declared in `client/config.h` (lines 4-8). -/
structure Config where
  WIFI_SSID : CStr
  WIFI_PASSWORD : CStr
  MQTT_SERVER : CStr
  MQTT_PORT : Int
  CA_CERT : CStr
deriving DecidableEq

/-- The raw string literal of `client/config.cpp` lines 7-11: everything
between `R"EOF(` and `)EOF"`, line feeds included. -/
def caCertLiteral : String :=
  "= \"-----BEGIN CERTIFICATE-----\nxx\nxx\nxx\n-----END CERTIFICATE-----"

/-- The initialisers of `client/config.cpp` lines 3-11. -/
def init : Config where
  WIFI_SSID := none
  WIFI_PASSWORD := none
  MQTT_SERVER := none
  MQTT_PORT := 8883
  CA_CERT := some caCertLiteral

/-- The body of `loadConfig` in `client/config.cpp` lines 13-17: three
assignments, in order. -/
def loadConfig (s : Config) : Config :=
  let s1 := { s with WIFI_SSID := some "xxxxx" }
  let s2 := { s1 with WIFI_PASSWORD := some "xxxxx" }
  { s2 with MQTT_SERVER := some "xxx.xx.xx.x" }

end Client

/-! ## Registration role: `Registration/config.cpp` -/

namespace Registration

/-- The globals defined in `Registration/config.cpp` (lines 3-12). -/
structure Config where
  WIFI_SSID : CStr
  WIFI_PASSWORD : CStr
  MQTT_SERVER : CStr
  MQTT_PORT : Int
  PLAYER_NAME : CStr
  CA_CERT : CStr
deriving DecidableEq

/-- The raw string literal of `Registration/config.cpp` lines 8-12. -/
def caCertLiteral : String :=
  "= \"-----BEGIN CERTIFICATE-----\nxx\nxx\nxx\n-----END CERTIFICATE-----"

/-- The initialisers of `Registration/config.cpp` lines 3-12. -/
def init : Config where
  WIFI_SSID := none
  WIFI_PASSWORD := none
  MQTT_SERVER := none
  MQTT_PORT := 8883
  PLAYER_NAME := none
  CA_CERT := some caCertLiteral

/-- The body of `loadConfig` in `Registration/config.cpp` lines 14-19: four
assignments, in order. -/
def loadConfig (s : Config) : Config :=
  let s1 := { s with WIFI_SSID := some "XXX" }
  let s2 := { s1 with WIFI_PASSWORD := some "XXX" }
  let s3 := { s2 with MQTT_SERVER := some "XXX" }
  { s3 with PLAYER_NAME := some "XXX" }

end Registration

/-! ## Vocabulary of the specification -/

/-- The mandatory fields a `MissingField` signal can refer to. -/
inductive Field where
  | ssid
  | password
  | host
deriving DecidableEq

/-- The error taxonomy of the specification (section 7). -/
inductive ConfigError where
  | MissingField (f : Field)
  | MalformedTrustAnchor
  | AlreadyFailed
deriving DecidableEq

/-- Observable outcome of a call of the client `loadConfig`.  The procedure
is declared `void loadConfig();`, its body holds no `throw`, no `return`, no
branch and no status variable, so every call runs to the closing brace:
the outcome is normal completion with the updated globals. -/
def Client.loadConfigOutcome (s : Client.Config) : Except ConfigError Client.Config :=
  Except.ok (Client.loadConfig s)

/-- Observable outcome of a call of the Registration `loadConfig`; as for the
client, the body is straight-line code in a `void` procedure. -/
def Registration.loadConfigOutcome (s : Registration.Config) :
    Except ConfigError Registration.Config :=
  Except.ok (Registration.loadConfig s)

/-- A C string that is set (not `nullptr`) and has at least one character. -/
def setNonEmpty : CStr → Bool
  | none => false
  | some t => decide (1 ≤ t.length)

/-- Lines of a text: a line feed terminates a line. -/
def splitLines : List Char → List (List Char)
  | [] => []
  | c :: cs =>
    if c = '\n' then [] :: splitLines cs
    else
      match splitLines cs with
      | [] => [[c]]
      | l :: ls => (c :: l) :: ls

/-- The opening line of a PEM certificate block. -/
def beginMarker : List Char := "-----BEGIN CERTIFICATE-----".data

/-- The closing line of a PEM certificate block. -/
def endMarker : List Char := "-----END CERTIFICATE-----".data

/-- Scan of the lines of a blob; the flag says whether the scan is inside a
block.  Outside a block the only admissible line is the opening marker;
inside, the closing marker leaves the block; the scan must end outside. -/
def pemScan : Bool → List (List Char) → Bool
  | false, [] => true
  | true, [] => false
  | false, l :: ls => l == beginMarker && pemScan true ls
  | true, l :: ls => if l == endMarker then pemScan false ls else pemScan true ls

/-- The first line of a blob, if it has one. -/
def firstLine (blob : String) : Option (List Char) :=
  (splitLines blob.data).head?

/-- A blob is well-delimited PEM: one or more blocks, each from an opening
marker line to a closing marker line, and nothing outside the blocks. -/
def wellDelimitedPEM (blob : String) : Bool :=
  firstLine blob == some beginMarker && pemScan false (splitLines blob.data)

/-! ## Sanity checks of the vocabulary -/

example : wellDelimitedPEM "-----BEGIN CERTIFICATE-----\nxx\n-----END CERTIFICATE-----" = true := by
  decide

example : wellDelimitedPEM "-----BEGIN CERTIFICATE-----\nxx\n-----END CERTIFICATE-----\n" = true := by
  decide

example : wellDelimitedPEM "" = false := by decide

example : setNonEmpty (some "") = false := by decide

/-! ## Shared lemmas -/

theorem Client.client_iterate_port (n : Nat) (s : Client.Config) :
    (Client.loadConfig^[n] s).MQTT_PORT = s.MQTT_PORT := by
  induction n generalizing s with
  | zero => rfl
  | succ k ih => rw [Function.iterate_succ_apply, ih]; rfl

theorem Registration.registration_iterate_port (n : Nat) (s : Registration.Config) :
    (Registration.loadConfig^[n] s).MQTT_PORT = s.MQTT_PORT := by
  induction n generalizing s with
  | zero => rfl
  | succ k ih => rw [Function.iterate_succ_apply, ih]; rfl

/-! ## The claims -/

/-- C1: in both roles the broker port `MQTT_PORT` is 8883 in the initial
state and after any number `n` of `loadConfig` calls from it, and that value
lies in the range 1..65535. -/
theorem mqtt_port_8883_in_every_reachable_state :
    (∀ n : Nat,
        (Client.loadConfig^[n] Client.init).MQTT_PORT = 8883 ∧
        1 ≤ (Client.loadConfig^[n] Client.init).MQTT_PORT ∧
        (Client.loadConfig^[n] Client.init).MQTT_PORT ≤ 65535) ∧
    (∀ n : Nat,
        (Registration.loadConfig^[n] Registration.init).MQTT_PORT = 8883 ∧
        1 ≤ (Registration.loadConfig^[n] Registration.init).MQTT_PORT ∧
        (Registration.loadConfig^[n] Registration.init).MQTT_PORT ≤ 65535) := by
  constructor
  · intro n
    have h : (Client.loadConfig^[n] Client.init).MQTT_PORT = 8883 := by
      rw [Client.client_iterate_port]; rfl
    rw [h]; decide
  · intro n
    have h : (Registration.loadConfig^[n] Registration.init).MQTT_PORT = 8883 := by
      rw [Registration.registration_iterate_port]; rfl
    rw [h]; decide

/-- C2: `loadConfig` is idempotent in both roles: from every state, running
it twice gives the same record, field by field, as running it once. -/
theorem loadConfig_idempotent :
    (∀ s : Client.Config,
        Client.loadConfig (Client.loadConfig s) = Client.loadConfig s) ∧
    (∀ s : Registration.Config,
        Registration.loadConfig (Registration.loadConfig s) = Registration.loadConfig s) :=
  ⟨fun _ => rfl, fun _ => rfl⟩

/-- C3: in both roles and from every state, after `loadConfig` each of
`WIFI_SSID`, `WIFI_PASSWORD` and `MQTT_SERVER` is set (not `nullptr`) and
points at a string of length at least 1. -/
theorem loadConfig_mandatory_fields_nonempty :
    (∀ s : Client.Config,
        (∃ t, (Client.loadConfig s).WIFI_SSID = some t ∧ 1 ≤ t.length) ∧
        (∃ t, (Client.loadConfig s).WIFI_PASSWORD = some t ∧ 1 ≤ t.length) ∧
        (∃ t, (Client.loadConfig s).MQTT_SERVER = some t ∧ 1 ≤ t.length)) ∧
    (∀ s : Registration.Config,
        (∃ t, (Registration.loadConfig s).WIFI_SSID = some t ∧ 1 ≤ t.length) ∧
        (∃ t, (Registration.loadConfig s).WIFI_PASSWORD = some t ∧ 1 ≤ t.length) ∧
        (∃ t, (Registration.loadConfig s).MQTT_SERVER = some t ∧ 1 ≤ t.length)) :=
  ⟨fun _ => ⟨⟨"xxxxx", rfl, by decide⟩, ⟨"xxxxx", rfl, by decide⟩,
      ⟨"xxx.xx.xx.x", rfl, by decide⟩⟩,
   fun _ => ⟨⟨"XXX", rfl, by decide⟩, ⟨"XXX", rfl, by decide⟩, ⟨"XXX", rfl, by decide⟩⟩⟩

/-- C4: identity law for the scalar fields: from every state, `loadConfig`
leaves ssid, password and host equal to the provisioned literals (client:
"xxxxx", "xxxxx", "xxx.xx.xx.x"; Registration: "XXX", "XXX", "XXX"),
whatever the fields held before. -/
theorem loadConfig_scalar_fields_identity :
    (∀ s : Client.Config,
        (Client.loadConfig s).WIFI_SSID = some "xxxxx" ∧
        (Client.loadConfig s).WIFI_PASSWORD = some "xxxxx" ∧
        (Client.loadConfig s).MQTT_SERVER = some "xxx.xx.xx.x") ∧
    (∀ s : Registration.Config,
        (Registration.loadConfig s).WIFI_SSID = some "XXX" ∧
        (Registration.loadConfig s).WIFI_PASSWORD = some "XXX" ∧
        (Registration.loadConfig s).MQTT_SERVER = some "XXX") :=
  ⟨fun _ => ⟨rfl, rfl, rfl⟩, fun _ => ⟨rfl, rfl, rfl⟩⟩

/-- C5: in both roles and from every state, `CA_CERT` after `loadConfig` is
the same byte sequence as before (hence the same length), and the only
globals `loadConfig` writes are ssid, password, host and (Registration) the
label: the port and the CA blob of the result are those of the start. -/
theorem loadConfig_preserves_ca_cert :
    (∀ s : Client.Config,
        (Client.loadConfig s).CA_CERT = s.CA_CERT ∧
        (Client.loadConfig s).CA_CERT.map String.length = s.CA_CERT.map String.length ∧
        Client.loadConfig s =
          ⟨(Client.loadConfig s).WIFI_SSID, (Client.loadConfig s).WIFI_PASSWORD,
           (Client.loadConfig s).MQTT_SERVER, s.MQTT_PORT, s.CA_CERT⟩) ∧
    (∀ s : Registration.Config,
        (Registration.loadConfig s).CA_CERT = s.CA_CERT ∧
        (Registration.loadConfig s).CA_CERT.map String.length =
          s.CA_CERT.map String.length ∧
        Registration.loadConfig s =
          ⟨(Registration.loadConfig s).WIFI_SSID, (Registration.loadConfig s).WIFI_PASSWORD,
           (Registration.loadConfig s).MQTT_SERVER, s.MQTT_PORT,
           (Registration.loadConfig s).PLAYER_NAME, s.CA_CERT⟩) :=
  ⟨fun _ => ⟨rfl, rfl, rfl⟩, fun _ => ⟨rfl, rfl, rfl⟩⟩

/-- C6 (the code departs from the claim): the compiled-in `CA_CERT` of each
role is not well-delimited PEM.  Its first line is the opening marker
preceded by the three characters `= "`, so it is not exactly the marker;
the blob without those three characters is well-delimited. -/
theorem ca_cert_first_line_is_not_begin_marker :
    Client.init.CA_CERT = some Client.caCertLiteral ∧
    Registration.init.CA_CERT = some Registration.caCertLiteral ∧
    firstLine Client.caCertLiteral = some ("= \"".data ++ beginMarker) ∧
    firstLine Client.caCertLiteral ≠ some beginMarker ∧
    wellDelimitedPEM Client.caCertLiteral = false ∧
    firstLine Registration.caCertLiteral ≠ some beginMarker ∧
    wellDelimitedPEM Registration.caCertLiteral = false ∧
    wellDelimitedPEM (Client.caCertLiteral.drop 3) = true ∧
    wellDelimitedPEM (Registration.caCertLiteral.drop 3) = true := by
  refine ⟨rfl, rfl, ?_, ?_, ?_, ?_, ?_, ?_, ?_⟩ <;> decide

/-- C7: before any `loadConfig` call each of `WIFI_SSID`, `WIFI_PASSWORD`,
`MQTT_SERVER` and (Registration) `PLAYER_NAME` is unset (`nullptr`), and the
unset state differs from every string value, the empty string included. -/
theorem initial_scalar_fields_unset :
    (Client.init.WIFI_SSID = none ∧ Client.init.WIFI_PASSWORD = none ∧
      Client.init.MQTT_SERVER = none) ∧
    (Registration.init.WIFI_SSID = none ∧ Registration.init.WIFI_PASSWORD = none ∧
      Registration.init.MQTT_SERVER = none ∧ Registration.init.PLAYER_NAME = none) ∧
    (∀ t : String, Client.init.WIFI_SSID ≠ some t) ∧
    Client.init.WIFI_SSID ≠ some "" ∧
    (∀ t : String, (none : CStr) ≠ some t) := by
  refine ⟨⟨rfl, rfl, rfl⟩, ⟨rfl, rfl, rfl, rfl⟩, ?_, ?_, ?_⟩
  · intro t h; cases h
  · intro h; cases h
  · intro t h; cases h

/-- C8: in the Registration role, from every state, `PLAYER_NAME` after
`loadConfig` is set and equals the non-empty "XXX"; in the Client role a
configuration is exactly its five globals ssid, password, host, port and CA
blob, so it carries no label. -/
theorem role_dependent_identity :
    (∀ s : Registration.Config,
        (Registration.loadConfig s).PLAYER_NAME = some "XXX" ∧
        setNonEmpty (Registration.loadConfig s).PLAYER_NAME = true) ∧
    (∀ s : Client.Config,
        s = Client.Config.mk s.WIFI_SSID s.WIFI_PASSWORD s.MQTT_SERVER s.MQTT_PORT s.CA_CERT) :=
  ⟨fun _ => ⟨rfl, rfl⟩, fun _ => rfl⟩

/-- C9 (the claim as stated fails): run with the compiled-in placeholder
blob, which is not well-delimited PEM, or with an empty blob, `loadConfig`
completes normally and hands the blob on; no `MalformedTrustAnchor`. -/
theorem placeholder_blob_raises_no_signal :
    wellDelimitedPEM Client.caCertLiteral = false ∧
    Client.loadConfigOutcome Client.init ≠ Except.error ConfigError.MalformedTrustAnchor ∧
    (∃ c, Client.loadConfigOutcome Client.init = Except.ok c ∧
        c.CA_CERT = some Client.caCertLiteral) ∧
    Client.loadConfigOutcome { Client.init with CA_CERT := some "" } ≠
      Except.error ConfigError.MalformedTrustAnchor ∧
    Registration.loadConfigOutcome Registration.init ≠
      Except.error ConfigError.MalformedTrustAnchor ∧
    Registration.loadConfigOutcome { Registration.init with CA_CERT := some "" } ≠
      Except.error ConfigError.MalformedTrustAnchor := by
  refine ⟨by decide, ?_, ⟨_, rfl, rfl⟩, ?_, ?_, ?_⟩ <;> intro h <;> cases h

/-- C9 (amended): `loadConfig` validates no trust material.  In both roles
and from every state, whatever the CA blob (placeholder, empty, unset), the
call completes normally, signals no error of any kind, and the CA blob of
the resulting configuration is the one it started with. -/
theorem loadConfig_never_signals_malformed_trust_anchor :
    (∀ s : Client.Config,
        (∃ c, Client.loadConfigOutcome s = Except.ok c ∧ c.CA_CERT = s.CA_CERT) ∧
        (∀ e : ConfigError, Client.loadConfigOutcome s ≠ Except.error e)) ∧
    (∀ s : Registration.Config,
        (∃ c, Registration.loadConfigOutcome s = Except.ok c ∧ c.CA_CERT = s.CA_CERT) ∧
        (∀ e : ConfigError, Registration.loadConfigOutcome s ≠ Except.error e)) := by
  refine ⟨fun s => ⟨⟨_, rfl, rfl⟩, ?_⟩, fun s => ⟨⟨_, rfl, rfl⟩, ?_⟩⟩ <;>
    intro e h <;> cases h

end IoTQuiz
